import Mathlib

/-!
Shallow embedding of the YewChat client core
(`src/YewChat/src/components/chat.rs`): the wire-envelope codec
(serde-derived JSON serialization of `WebSocketMessage` and the nested
`MessageData` payload), the protocol state machine (`Chat::create`,
`Chat::update`), and the derived-view projections used by `Chat::view`
(roster avatar derivation, thread avatar lookup with initials fallback,
and the `.gif` image-rendering flag).

JSON documents are modelled by an explicit tree type `Json`; text frames
are parsed into that tree by `parseJson`, mirroring `serde_json::from_str`
(parse failure ⇒ the Rust `.unwrap()` panics, modelled as `none`).
JSON numbers are modelled as integers and lone `\u` escapes are combined
naively; no envelope field in this protocol carries a number, so the
decoders below reject numeric values in every position either way.
-/

/-- JSON document tree, the target of `serde_json` parsing. -/
inductive Json where
  | null
  | bool (b : Bool)
  | num (n : Int)
  | str (s : String)
  | arr (elems : List Json)
  | obj (fields : List (String × Json))

/-- Skip JSON whitespace, as `serde_json` does between tokens. -/
def skipWs : List Char → List Char
  | c :: cs =>
    if c = ' ' ∨ c = '\n' ∨ c = '\t' ∨ c = '\r' then skipWs cs else c :: cs
  | [] => []

/-- Value of one hex digit, for `\uXXXX` string escapes. -/
def hexVal (c : Char) : Option Nat :=
  if '0' ≤ c ∧ c ≤ '9' then some (c.toNat - '0'.toNat)
  else if 'a' ≤ c ∧ c ≤ 'f' then some (c.toNat - 'a'.toNat + 10)
  else if 'A' ≤ c ∧ c ≤ 'F' then some (c.toNat - 'A'.toNat + 10)
  else none

/-- Parse the body of a JSON string (after the opening quote), returning
the decoded characters and the remaining input after the closing quote. -/
def parseStringBody : Nat → List Char → Option (List Char × List Char)
  | 0, _ => none
  | _ + 1, [] => none
  | fuel + 1, c :: cs =>
    if c = '"' then some ([], cs)
    else if c = '\\' then
      match cs with
      | [] => none
      | e :: cs₂ =>
        if e = '"' then
          (parseStringBody fuel cs₂).map fun p => ('"' :: p.1, p.2)
        else if e = '\\' then
          (parseStringBody fuel cs₂).map fun p => ('\\' :: p.1, p.2)
        else if e = '/' then
          (parseStringBody fuel cs₂).map fun p => ('/' :: p.1, p.2)
        else if e = 'n' then
          (parseStringBody fuel cs₂).map fun p => ('\n' :: p.1, p.2)
        else if e = 't' then
          (parseStringBody fuel cs₂).map fun p => ('\t' :: p.1, p.2)
        else if e = 'r' then
          (parseStringBody fuel cs₂).map fun p => ('\r' :: p.1, p.2)
        else if e = 'b' then
          (parseStringBody fuel cs₂).map fun p => (Char.ofNat 8 :: p.1, p.2)
        else if e = 'f' then
          (parseStringBody fuel cs₂).map fun p => (Char.ofNat 12 :: p.1, p.2)
        else if e = 'u' then
          match cs₂ with
          | h₁ :: h₂ :: h₃ :: h₄ :: cs₃ =>
            match hexVal h₁, hexVal h₂, hexVal h₃, hexVal h₄ with
            | some a, some b, some c', some d =>
              (parseStringBody fuel cs₃).map fun p =>
                (Char.ofNat (a * 4096 + b * 256 + c' * 16 + d) :: p.1, p.2)
            | _, _, _, _ => none
          | _ => none
        else none
    else if c.toNat < 32 then none
    else (parseStringBody fuel cs).map fun p => (c :: p.1, p.2)

/-- Parse an optionally-signed run of decimal digits (JSON number,
restricted to integers; see the header note). -/
def parseDigits : List Char → Nat → List Char → Option (Int × List Char)
  | [], acc, initial =>
    if initial = [] then none else some (Int.ofNat acc, [])
  | c :: cs, acc, initial =>
    if '0' ≤ c ∧ c ≤ '9' then
      parseDigits cs (acc * 10 + (c.toNat - '0'.toNat)) (c :: initial)
    else if initial = [] then none
    else some (Int.ofNat acc, c :: cs)

/-- Parse a sequence of array elements given the value parser for the
remaining fuel; called after the opening bracket. -/
def parseElems (pv : List Char → Option (Json × List Char)) :
    Nat → List Char → Option (List Json × List Char)
  | 0, _ => none
  | fuel + 1, cs =>
    match pv cs with
    | none => none
    | some (v, rest) =>
      match skipWs rest with
      | ']' :: rest₂ => some ([v], rest₂)
      | ',' :: rest₂ =>
        (parseElems pv fuel rest₂).map fun p => (v :: p.1, p.2)
      | _ => none

/-- Parse a sequence of object members given the value parser for the
remaining fuel; called after the opening brace. -/
def parseMembers (pv : List Char → Option (Json × List Char)) :
    Nat → List Char → Option (List (String × Json) × List Char)
  | 0, _ => none
  | fuel + 1, cs =>
    match skipWs cs with
    | '"' :: cs₂ =>
      match parseStringBody fuel cs₂ with
      | none => none
      | some (key, rest) =>
        match skipWs rest with
        | ':' :: rest₂ =>
          match pv rest₂ with
          | none => none
          | some (v, rest₃) =>
            match skipWs rest₃ with
            | '}' :: rest₄ => some ([(String.mk key, v)], rest₄)
            | ',' :: rest₄ =>
              (parseMembers pv fuel rest₄).map fun p =>
                ((String.mk key, v) :: p.1, p.2)
            | _ => none
        | _ => none
    | _ => none

/-- Fueled recursive-descent parser for one JSON value. -/
def parseValue : Nat → List Char → Option (Json × List Char)
  | 0, _ => none
  | fuel + 1, cs =>
    match skipWs cs with
    | [] => none
    | c :: cs₂ =>
      if c = 'n' then
        match cs₂ with
        | 'u' :: 'l' :: 'l' :: rest => some (Json.null, rest)
        | _ => none
      else if c = 't' then
        match cs₂ with
        | 'r' :: 'u' :: 'e' :: rest => some (Json.bool true, rest)
        | _ => none
      else if c = 'f' then
        match cs₂ with
        | 'a' :: 'l' :: 's' :: 'e' :: rest => some (Json.bool false, rest)
        | _ => none
      else if c = '"' then
        (parseStringBody fuel cs₂).map fun p => (Json.str (String.mk p.1), p.2)
      else if c = '[' then
        match skipWs cs₂ with
        | ']' :: rest => some (Json.arr [], rest)
        | cs₃ =>
          (parseElems (parseValue fuel) fuel cs₃).map fun p => (Json.arr p.1, p.2)
      else if c = '{' then
        match skipWs cs₂ with
        | '}' :: rest => some (Json.obj [], rest)
        | cs₃ =>
          (parseMembers (parseValue fuel) fuel cs₃).map fun p =>
            (Json.obj p.1, p.2)
      else if c = '-' then
        (parseDigits cs₂ 0 []).map fun p => (Json.num (-p.1), p.2)
      else if '0' ≤ c ∧ c ≤ '9' then
        (parseDigits (c :: cs₂) 0 []).map fun p => (Json.num p.1, p.2)
      else none

/-- Parse a whole text frame as one JSON document followed only by
whitespace, as `serde_json::from_str` requires. -/
def parseJson (s : String) : Option Json :=
  match parseValue (s.data.length + 1) s.data with
  | some (v, rest) => if skipWs rest = [] then some v else none
  | none => none

/-- The `MsgTypes` tag enum of the wire envelope
(`#[serde(rename_all = "lowercase")]`). -/
inductive MsgTypes where
  | Users
  | Register
  | Message
deriving DecidableEq

/-- Wire tag string of a `MsgTypes` value (lowercase rename). -/
def MsgTypes.tag : MsgTypes → String
  | .Users => "users"
  | .Register => "register"
  | .Message => "message"

/-- Deserialize a `MsgTypes` value from its JSON form (a lowercase
string); any other document fails. -/
def decodeMsgTypes : Json → Option MsgTypes
  | Json.str s =>
    if s = "users" then some MsgTypes.Users
    else if s = "register" then some MsgTypes.Register
    else if s = "message" then some MsgTypes.Message
    else none
  | _ => none

/-- The wire envelope `WebSocketMessage`
(`#[serde(rename_all = "camelCase")]`): field keys are `messageType`,
`dataArray`, `data`. -/
structure WebSocketMessage where
  message_type : MsgTypes
  data_array : Option (List String)
  data : Option String
deriving DecidableEq

/-- The nested `MessageData` payload of a `Message`-tagged envelope.
(`from` is a reserved word in Lean, hence `from_`.) -/
structure MessageData where
  from_ : String
  message : String
deriving DecidableEq

/-- Serialize the envelope: serde emits every field in declaration
order, with `None` options as JSON `null`. -/
def encodeWebSocketMessage (m : WebSocketMessage) : Json :=
  Json.obj
    [("messageType", Json.str m.message_type.tag),
     ("dataArray",
       match m.data_array with
       | none => Json.null
       | some l => Json.arr (l.map Json.str)),
     ("data",
       match m.data with
       | none => Json.null
       | some s => Json.str s)]

/-- Deserialize a JSON array as `Vec<String>`: every element must be a
string. -/
def decodeStrList : List Json → Option (List String)
  | [] => some []
  | Json.str s :: rest => (decodeStrList rest).map fun l => s :: l
  | _ => none

/-- Field loop of the serde-derived `Deserialize` for `WebSocketMessage`:
walk the object members in order, filling each field at most once
(a duplicate key is an error), ignoring unknown keys; `Option` fields
accept `null` and may be absent, `messageType` is required. -/
def decodeWSFields : List (String × Json) → Option MsgTypes →
    Option (Option (List String)) → Option (Option String) →
    Option WebSocketMessage
  | [], mt, da, d =>
    match mt with
    | none => none
    | some t => some ⟨t, (da.getD none), (d.getD none)⟩
  | kv :: rest, mt, da, d =>
    if kv.1 = "messageType" then
      match mt with
      | some _ => none
      | none =>
        match decodeMsgTypes kv.2 with
        | none => none
        | some t => decodeWSFields rest (some t) da d
    else if kv.1 = "dataArray" then
      match da with
      | some _ => none
      | none =>
        match kv.2 with
        | Json.null => decodeWSFields rest mt (some none) d
        | Json.arr xs =>
          match decodeStrList xs with
          | none => none
          | some l => decodeWSFields rest mt (some (some l)) d
        | _ => none
    else if kv.1 = "data" then
      match d with
      | some _ => none
      | none =>
        match kv.2 with
        | Json.null => decodeWSFields rest mt da (some none)
        | Json.str s => decodeWSFields rest mt da (some (some s))
        | _ => none
    else decodeWSFields rest mt da d

/-- Deserialize the wire envelope from a JSON document: it must be an
object; see `decodeWSFields` for the field discipline. -/
def decodeWebSocketMessage : Json → Option WebSocketMessage
  | Json.obj fields => decodeWSFields fields none none none
  | _ => none

/-- Field loop of the serde-derived `Deserialize` for `MessageData`:
both `from` and `message` are required strings, duplicates are errors,
unknown keys are ignored. -/
def decodeMDFields : List (String × Json) → Option String →
    Option String → Option MessageData
  | [], f, m =>
    match f, m with
    | some f', some m' => some ⟨f', m'⟩
    | _, _ => none
  | kv :: rest, f, m =>
    if kv.1 = "from" then
      match f with
      | some _ => none
      | none =>
        match kv.2 with
        | Json.str s => decodeMDFields rest (some s) m
        | _ => none
    else if kv.1 = "message" then
      match m with
      | some _ => none
      | none =>
        match kv.2 with
        | Json.str s => decodeMDFields rest f (some s)
        | _ => none
    else decodeMDFields rest f m

/-- Deserialize the nested `MessageData` payload from a JSON document. -/
def decodeMessageData : Json → Option MessageData
  | Json.obj fields => decodeMDFields fields none none
  | _ => none

/-- Model of `serde_json::from_str::<WebSocketMessage>`: parse the text frame as
JSON, then deserialize the envelope. -/
def envelopeFromStr (s : String) : Option WebSocketMessage :=
  (parseJson s).bind decodeWebSocketMessage

/-- Model of `serde_json::from_str::<MessageData>`: parse the `data` string as
JSON, then deserialize the nested payload. -/
def messageDataFromStr (s : String) : Option MessageData :=
  (parseJson s).bind decodeMessageData

/-- Derived roster entry (`UserProfile` in the source): `name` plus the
avatar URL derived from it. -/
structure UserProfile where
  name : String
  avatar : String
deriving DecidableEq

/-- The protocol-relevant fields of the `Chat` component struct; the
`NodeRef`, transport handle and event-bus bridge are external glue. -/
structure Chat where
  users : List UserProfile
  messages : List MessageData
deriving DecidableEq

/-- The fixed adventurer-neutral avatar template applied to each roster
name (the `format!` call in the `Users` arm). -/
def adventurerAvatar (u : String) : String :=
  "https://avatars.dicebear.com/api/adventurer-neutral/" ++ u ++ ".svg"

/-- The fixed initials fallback template used by the thread projection
when `from` has no roster match. -/
def initialsAvatar (f : String) : String :=
  "https://avatars.dicebear.com/api/initials/" ++ f ++ ".svg"

/-- The `Msg::HandleMsg` arm of `Chat::update` after the envelope has
been deserialized: `Users` replaces the roster wholesale
(`data_array.unwrap_or_default()`), `Message` appends the decoded
nested payload, anything else returns `false` with no state change.
`none` models a `.unwrap()` panic (absent `data` or failed nested
decode); the returned `Bool` is `update`'s re-render signal. -/
def applyEnvelope (st : Chat) (msg : WebSocketMessage) : Option (Chat × Bool) :=
  match msg.message_type with
  | MsgTypes.Users =>
    let users_from_message := msg.data_array.getD []
    some ({ st with
            users := users_from_message.map fun u => ⟨u, adventurerAvatar u⟩ },
          true)
  | MsgTypes.Message =>
    match msg.data with
    | none => none
    | some d =>
      match messageDataFromStr d with
      | none => none
      | some message_data =>
        some ({ st with messages := st.messages ++ [message_data] }, true)
  | _ => some (st, false)

/-- The full `Msg::HandleMsg` arm on a raw text frame:
`serde_json::from_str(&s).unwrap()` (panic modelled as `none`), then
dispatch on the tag. -/
def handleFrame (st : Chat) (s : String) : Option (Chat × Bool) :=
  match envelopeFromStr s with
  | none => none
  | some msg => applyEnvelope st msg

/-- Apply a sequence of inbound envelopes in arrival order, propagating
a panic. -/
def applyEnvelopes (st : Chat) : List WebSocketMessage → Option Chat
  | [] => some st
  | m :: rest =>
    match applyEnvelope st m with
    | none => none
    | some (st₂, _) => applyEnvelopes st₂ rest

/-- Result of the `Msg::SubmitMessage` arm: the (unchanged) component
state, the outbound frames handed to `wss.tx.try_send` (as JSON
documents), the input field's displayed value afterwards, and the
re-render signal returned by `update`. -/
structure SubmitOutcome where
  state : Chat
  sent : List Json
  inputAfter : Option String
  render : Bool

/-- The Unicode `White_Space` property, the character class removed by
Rust `str::trim`. -/
def rustIsWhitespace (c : Char) : Bool :=
  let n := c.toNat
  (9 ≤ n && n ≤ 13) || n = 32 || n = 133 || n = 160 || n = 0x1680 ||
    (0x2000 ≤ n && n ≤ 0x200A) || n = 0x2028 || n = 0x2029 ||
    n = 0x202F || n = 0x205F || n = 0x3000

/-- Model of `message_content.trim().is_empty()` from the submit guard: the
trimmed text is empty exactly when every character is whitespace. -/
def trimIsEmpty (s : String) : Bool :=
  s.data.all rustIsWhitespace

/-- The `Msg::SubmitMessage` arm of `Chat::update`. `input` is the
result of `chat_input.cast::<HtmlInputElement>()` (its current value
when the element exists); `sendOk` is the outcome of `try_send`, which
the source only logs. Whitespace-only input is a guarded no-op; other
input is wrapped in a `Message` envelope with the raw text as `data`
and the field is cleared (`set_value("")`) regardless of `sendOk`. -/
def submitMessage (st : Chat) (input : Option String) (sendOk : Bool) :
    SubmitOutcome :=
  match input with
  | none => ⟨st, [], none, false⟩
  | some message_content =>
    if trimIsEmpty message_content then ⟨st, [], some message_content, false⟩
    else
      ⟨st,
       [encodeWebSocketMessage ⟨MsgTypes.Message, none, some message_content⟩],
       some "", false⟩

/-- The `Register` envelope built in `Chat::create`
(`data = username`, `data_array = None`). -/
def registerMessage (username : String) : WebSocketMessage :=
  ⟨MsgTypes.Register, none, some username⟩

/-- Model of `Chat::create`: send the `Register` announce once (fire-and-forget;
`sendOk` is `try_send`'s outcome, only logged) and start with empty
roster and message log. -/
def create (username : String) (sendOk : Bool) : Chat × List Json :=
  (⟨[], []⟩, [encodeWebSocketMessage (registerMessage username)])

/-- Thread-projection avatar lookup from `Chat::view`:
`users.iter().find(|u| u.name == m.from)`, falling back to the
initials template on a miss (`map_or_else`). -/
def resolveAvatar (users : List UserProfile) (m : MessageData) : String :=
  match users.find? fun u => u.name == m.from_ with
  | some user => user.avatar
  | none => initialsAvatar m.from_

/-- The image-rendering flag from `Chat::view`:
`m.message.ends_with(".gif")`. Rust `str::ends_with` with a valid
UTF-8 pattern is exactly a suffix match on the character sequence. -/
def rendersAsImage (m : MessageData) : Bool :=
  ".gif".data.isSuffixOf m.message.data

lemma decodeStrList_map (l : List String) :
    decodeStrList (l.map Json.str) = some l := by
  induction l with
  | nil => rfl
  | cons x xs ih => simp [decodeStrList, ih]

lemma decode_encode_id (e : WebSocketMessage) :
    decodeWebSocketMessage (encodeWebSocketMessage e) = some e := by
  obtain ⟨mt, da, d⟩ := e
  cases mt <;> cases da <;> cases d <;>
    simp [encodeWebSocketMessage, decodeWebSocketMessage, decodeWSFields,
      decodeMsgTypes, MsgTypes.tag, decodeStrList_map]

/-- C4: for every constructible wire envelope across the three tags,
with `data` and `dataArray` each present or absent, deserializing the
serialized JSON document gives back the same envelope. -/
theorem envelope_roundtrip (e : WebSocketMessage) :
    decodeWebSocketMessage (encodeWebSocketMessage e) = some e :=
  decode_encode_id e

lemma applyEnvelope_users (st : Chat) (msg : WebSocketMessage)
    (h : msg.message_type = MsgTypes.Users) :
    applyEnvelope st msg =
      some (⟨(msg.data_array.getD []).map fun u => ⟨u, adventurerAvatar u⟩,
             st.messages⟩, true) := by
  obtain ⟨mt, da, d⟩ := msg
  cases h
  rfl

/-- C1: applying a `Users` envelope to any state replaces the roster
wholesale with one profile per `dataArray` entry in order (empty when
`dataArray` is absent), each avatar derived from the name via the fixed
adventurer-neutral template, and signals a re-render; consequently,
after a sequence of `Users` envelopes the roster is exactly that of the
last one, regardless of prior roster content. -/
theorem users_envelope_replaces_roster (st : Chat)
    (pre : List WebSocketMessage) (msg : WebSocketMessage)
    (hpre : ∀ m ∈ pre, m.message_type = MsgTypes.Users)
    (hmsg : msg.message_type = MsgTypes.Users) :
    applyEnvelope st msg =
      some (⟨(msg.data_array.getD []).map
               (fun u =>
                 ⟨u, "https://avatars.dicebear.com/api/adventurer-neutral/"
                       ++ u ++ ".svg"⟩),
             st.messages⟩, true)
    ∧ applyEnvelopes st (pre ++ [msg]) =
        some ⟨(msg.data_array.getD []).map
                (fun u =>
                  ⟨u, "https://avatars.dicebear.com/api/adventurer-neutral/"
                        ++ u ++ ".svg"⟩),
              st.messages⟩ := by
  refine ⟨applyEnvelope_users st msg hmsg, ?_⟩
  induction pre generalizing st with
  | nil =>
    simp [applyEnvelopes, applyEnvelope_users st msg hmsg, adventurerAvatar]
  | cons m rest ih =>
    have hm := hpre m (by simp)
    have hrest : ∀ m₂ ∈ rest, m₂.message_type = MsgTypes.Users := by
      intro m₂ hm₂; exact hpre m₂ (by simp [hm₂])
    simp only [List.cons_append, applyEnvelopes, applyEnvelope_users st m hm]
    exact ih _ hrest

/-- Witness for `users_envelope_replaces_roster` at a concrete state and
envelopes. -/
theorem users_envelope_replaces_roster_witness :
    applyEnvelopes ⟨[⟨"old", "x"⟩], [⟨"alice", "hi"⟩]⟩
        ([⟨MsgTypes.Users, some ["a"], none⟩] ++
          [⟨MsgTypes.Users, some ["b", "c"], none⟩]) =
      some ⟨[⟨"b", "https://avatars.dicebear.com/api/adventurer-neutral/b.svg"⟩,
             ⟨"c", "https://avatars.dicebear.com/api/adventurer-neutral/c.svg"⟩],
            [⟨"alice", "hi"⟩]⟩ := by
  have h := users_envelope_replaces_roster ⟨[⟨"old", "x"⟩], [⟨"alice", "hi"⟩]⟩
    [⟨MsgTypes.Users, some ["a"], none⟩] ⟨MsgTypes.Users, some ["b", "c"], none⟩
    (by intro m hm; simp at hm; rw [hm]) rfl
  simpa using h.2

/-- C2: applying a `Message` envelope whose `data` decodes to a valid
nested `{from, message}` payload appends exactly that payload at the
end of `messages`, leaves every prior entry unchanged in its original
position, leaves the roster alone, and signals a re-render. -/
theorem message_envelope_appends (st : Chat) (msg : WebSocketMessage)
    (d : String) (md : MessageData)
    (ht : msg.message_type = MsgTypes.Message) (hd : msg.data = some d)
    (hmd : messageDataFromStr d = some md) :
    applyEnvelope st msg = some (⟨st.users, st.messages ++ [md]⟩, true)
    ∧ (st.messages ++ [md]).length = st.messages.length + 1
    ∧ (st.messages ++ [md]).take st.messages.length = st.messages
    ∧ (st.messages ++ [md]).getLast? = some md := by
  obtain ⟨mt, da, dta⟩ := msg
  cases ht
  simp only at hd
  subst hd
  refine ⟨?_, by simp, by simp [List.take_left], by simp⟩
  simp [applyEnvelope, hmd]

/-- Witness for `message_envelope_appends` on a concrete state and
envelope. -/
theorem message_envelope_appends_witness :
    applyEnvelope ⟨[], [⟨"bob", "yo"⟩]⟩
        ⟨MsgTypes.Message, none,
         some "\x7b\"from\":\"alice\",\"message\":\"hi\"\x7d"⟩ =
      some (⟨[], [⟨"bob", "yo"⟩, ⟨"alice", "hi"⟩]⟩, true) := by
  have h := message_envelope_appends ⟨[], [⟨"bob", "yo"⟩]⟩
    ⟨MsgTypes.Message, none,
     some "\x7b\"from\":\"alice\",\"message\":\"hi\"\x7d"⟩
    "\x7b\"from\":\"alice\",\"message\":\"hi\"\x7d" ⟨"alice", "hi"⟩
    rfl rfl (by rfl)
  simpa using h.1

/-- C3: on a submit-message intent, whitespace-only input is a guarded
no-op (nothing sent, input untouched, no re-render); otherwise exactly
one outbound frame is produced, it deserializes back to a `Message`
envelope whose `data` is the raw untrimmed input text, the displayed
input is cleared, and the outcome is the same whether the transport
send succeeds or fails. -/
theorem submit_message_spec (st : Chat) (v : String) (sendOk : Bool) :
    (trimIsEmpty v = true →
      submitMessage st (some v) sendOk = ⟨st, [], some v, false⟩)
    ∧ (trimIsEmpty v = false →
      submitMessage st (some v) sendOk =
        ⟨st, [encodeWebSocketMessage ⟨MsgTypes.Message, none, some v⟩],
         some "", false⟩
      ∧ decodeWebSocketMessage
          (encodeWebSocketMessage ⟨MsgTypes.Message, none, some v⟩) =
          some ⟨MsgTypes.Message, none, some v⟩
      ∧ submitMessage st (some v) true = submitMessage st (some v) false) := by
  constructor
  · intro h
    simp [submitMessage, h]
  · intro h
    refine ⟨by simp [submitMessage, h], decode_encode_id _,
      by simp [submitMessage, h]⟩

/-- Witness for `submit_message_spec`: whitespace-only input is a no-op;
input `"hello"` produces one frame that decodes back to a `Message`
envelope carrying `"hello"` and clears the field. -/
theorem submit_message_spec_witness :
    submitMessage ⟨[], []⟩ (some "  ") true = ⟨⟨[], []⟩, [], some "  ", false⟩
    ∧ submitMessage ⟨[], []⟩ (some "hello") true =
        ⟨⟨[], []⟩,
         [encodeWebSocketMessage ⟨MsgTypes.Message, none, some "hello"⟩],
         some "", false⟩
    ∧ decodeWebSocketMessage
        (encodeWebSocketMessage ⟨MsgTypes.Message, none, some "hello"⟩) =
        some ⟨MsgTypes.Message, none, some "hello"⟩ :=
  ⟨(submit_message_spec ⟨[], []⟩ "  " true).1 (by rfl),
   ((submit_message_spec ⟨[], []⟩ "hello" true).2 (by rfl)).1,
   ((submit_message_spec ⟨[], []⟩ "hello" true).2 (by rfl)).2.1⟩

/-- C5 counterexample: the claim extends the no-op to "any tag outside
the recognized set", but the concrete frame
`{"messageType":"ping"}` makes the handler abort (envelope
deserialization fails and the `.unwrap()` panics): it is a failure, not
a state-preserving no-op. -/
theorem unrecognized_tag_aborts_cex :
    handleFrame ⟨[], []⟩ "\x7b\"messageType\":\"ping\"\x7d" = none
    ∧ handleFrame ⟨[], []⟩ "\x7b\"messageType\":\"ping\"\x7d" ≠
        some (⟨[], []⟩, false) := by
  have h : handleFrame ⟨[], []⟩ "\x7b\"messageType\":\"ping\"\x7d" = none := rfl
  exact ⟨h, by rw [h]; simp⟩

/-- C5 (amended): for every inbound envelope whose decoded tag is
neither `Users` nor `Message` — that is, `Register`, the only other
member of the recognized set — applying it leaves the state unchanged
and signals no re-render; tags outside the recognized set never reach
this arm because envelope deserialization rejects them. -/
theorem other_tag_is_noop (st : Chat) (msg : WebSocketMessage)
    (h : msg.message_type ≠ MsgTypes.Users)
    (h₂ : msg.message_type ≠ MsgTypes.Message) :
    applyEnvelope st msg = some (st, false) := by
  obtain ⟨mt, da, d⟩ := msg
  cases mt
  · exact absurd rfl h
  · rfl
  · exact absurd rfl h₂

/-- Witness for `other_tag_is_noop`: an inbound `Register` envelope is
a no-op without a re-render signal. -/
theorem other_tag_is_noop_witness :
    applyEnvelope ⟨[⟨"a", "u"⟩], []⟩ ⟨MsgTypes.Register, none, some "x"⟩ =
      some (⟨[⟨"a", "u"⟩], []⟩, false) :=
  other_tag_is_noop ⟨[⟨"a", "u"⟩], []⟩ ⟨MsgTypes.Register, none, some "x"⟩
    (by simp) (by simp)

/-- C6: the inbound handler aborts — the `.unwrap()` panic branch —
on every frame that fails envelope deserialization (malformed JSON or
unrecognized `messageType`), and on every `Message`-tagged envelope
whose `data` is absent or does not decode to a `{from, message}`
record; the final two conjuncts show both abort branches reached at
concrete inputs. -/
theorem handler_aborts_on_malformed :
    (∀ (st : Chat) (s : String),
      envelopeFromStr s = none → handleFrame st s = none)
    ∧ (∀ (st : Chat) (msg : WebSocketMessage),
        msg.message_type = MsgTypes.Message → msg.data = none →
        applyEnvelope st msg = none)
    ∧ (∀ (st : Chat) (msg : WebSocketMessage) (d : String),
        msg.message_type = MsgTypes.Message → msg.data = some d →
        messageDataFromStr d = none → applyEnvelope st msg = none)
    ∧ handleFrame ⟨[], []⟩ "not json" = none
    ∧ handleFrame ⟨[], []⟩
        "\x7b\"messageType\":\"message\",\"data\":\"oops\"\x7d" = none := by
  refine ⟨?_, ?_, ?_, by rfl, by rfl⟩
  · intro st s h
    simp [handleFrame, h]
  · intro st msg ht hd
    obtain ⟨mt, da, d⟩ := msg
    cases ht
    simp only at hd
    subst hd
    rfl
  · intro st msg d ht hd hfail
    obtain ⟨mt, da, dta⟩ := msg
    cases ht
    simp only at hd
    subst hd
    simp [applyEnvelope, hfail]

/-- C7: the thread projection resolves a sender's avatar by exact name
match of `from` against the roster — a hit uses that roster entry's
avatar, and when no roster entry carries the name the avatar is the
initials-fallback template seeded with `from`; in particular roster
`[{name:"alice", avatarUrl:"A"}]` resolves sender `"bob"` to the
initials URL for `"bob"`, not to `"A"`. -/
theorem thread_avatar_resolution (users : List UserProfile)
    (m : MessageData) :
    (∀ u, users.find? (fun x => x.name == m.from_) = some u →
      u ∈ users ∧ u.name = m.from_ ∧ resolveAvatar users m = u.avatar)
    ∧ ((∀ u ∈ users, u.name ≠ m.from_) →
      resolveAvatar users m =
        "https://avatars.dicebear.com/api/initials/" ++ m.from_ ++ ".svg")
    ∧ resolveAvatar [⟨"alice", "A"⟩] ⟨"bob", "hi"⟩ =
        "https://avatars.dicebear.com/api/initials/bob.svg" := by
  refine ⟨?_, ?_, rfl⟩
  · intro u hu
    refine ⟨List.mem_of_find?_eq_some hu, ?_, ?_⟩
    · have := List.find?_some hu
      simpa using this
    · simp [resolveAvatar, hu]
  · intro h
    have hnone : users.find? (fun x => x.name == m.from_) = none := by
      rw [List.find?_eq_none]
      intro u hu
      simpa using h u hu
    simp [resolveAvatar, hnone, initialsAvatar]

/-- Witness for `thread_avatar_resolution`: a roster hit returns the
stored avatar; the spec's alice/bob example falls back to the initials
template. -/
theorem thread_avatar_resolution_witness :
    resolveAvatar [⟨"alice", "A"⟩] ⟨"alice", "hi"⟩ = "A"
    ∧ resolveAvatar [⟨"alice", "A"⟩] ⟨"bob", "hi"⟩ =
        "https://avatars.dicebear.com/api/initials/bob.svg" :=
  ⟨((thread_avatar_resolution [⟨"alice", "A"⟩] ⟨"alice", "hi"⟩).1
      ⟨"alice", "A"⟩ (by rfl)).2.2,
   ((thread_avatar_resolution [⟨"alice", "A"⟩] ⟨"bob", "hi"⟩).2.1
      (by intro u hu; simp at hu; rw [hu]; simp))⟩

/-- C8: a message is flagged for image rendering exactly when its text
ends with the literal, case-sensitive suffix `.gif`: `cat.gif` is
flagged, while `cat.gif.txt` and `cat.GIF` are rendered as plain
text. -/
theorem gif_rendering_flag (m : MessageData) :
    (rendersAsImage m = true ↔
      ∃ pre : List Char, m.message.data = pre ++ ".gif".data)
    ∧ rendersAsImage ⟨"alice", "cat.gif"⟩ = true
    ∧ rendersAsImage ⟨"alice", "cat.gif.txt"⟩ = false
    ∧ rendersAsImage ⟨"alice", "cat.GIF"⟩ = false := by
  refine ⟨?_, by rfl, by rfl, by rfl⟩
  rw [rendersAsImage, List.isSuffixOf_iff_suffix]
  constructor
  · rintro ⟨pre, hpre⟩
    exact ⟨pre, hpre.symm⟩
  · rintro ⟨pre, hpre⟩
    exact ⟨pre, hpre.symm⟩

/-- C9: on creation the state machine sends exactly one frame — the
serialized `Register` envelope carrying the configured username as
`data` with `dataArray` absent (the frame deserializes back to exactly
that envelope) — starts with an empty roster and empty message log,
and the outcome is identical whether the transport send succeeds or
fails. -/
theorem create_registers_once (username : String) (sendOk : Bool) :
    create username sendOk =
      (⟨[], []⟩,
       [encodeWebSocketMessage ⟨MsgTypes.Register, none, some username⟩])
    ∧ decodeWebSocketMessage
        (encodeWebSocketMessage ⟨MsgTypes.Register, none, some username⟩) =
        some ⟨MsgTypes.Register, none, some username⟩
    ∧ create username true = create username false :=
  ⟨rfl, decode_encode_id _, rfl⟩

/-- C10: frame conditions of every transition — a `Users` envelope
never touches `messages`, a `Message` envelope never touches the
roster, and a submit-message intent touches neither (the locally sent
message is not optimistically appended). -/
theorem transition_frame_conditions (st : Chat) (msg : WebSocketMessage)
    (input : Option String) (sendOk : Bool) :
    (∀ st₂ b, msg.message_type = MsgTypes.Users →
      applyEnvelope st msg = some (st₂, b) → st₂.messages = st.messages)
    ∧ (∀ st₂ b, msg.message_type = MsgTypes.Message →
      applyEnvelope st msg = some (st₂, b) → st₂.users = st.users)
    ∧ (submitMessage st input sendOk).state = st := by
  obtain ⟨mt, da, d⟩ := msg
  refine ⟨?_, ?_, ?_⟩
  · rintro st₂ b rfl h
    simp [applyEnvelope] at h
    rw [← h.1]
  · rintro st₂ b rfl h
    cases d with
    | none => simp [applyEnvelope] at h
    | some dd =>
      simp only [applyEnvelope] at h
      cases hmd : messageDataFromStr dd with
      | none => simp [hmd] at h
      | some md =>
        simp [hmd] at h
        rw [← h.1]
  · cases input with
    | none => rfl
    | some v =>
      by_cases hv : trimIsEmpty v
      · simp [submitMessage, hv]
      · simp [submitMessage, hv]
